import Mathlib

/-!
Shallow embedding of the POSIX-compatibility VFS layer of the arceos kernel
(files `src/api/arceos_posix_api/src/imp/fs.rs`,
`src/api/arceos_posix_api/src/ctypes_ext.rs`,
`src/modules/axfs/src/api/mount.rs`), together with theorems checking the
natural-language specification against it.

Fallible Rust code returning `LinuxResult<T>` is embedded as
`Except LinuxError T`; a Rust panic (an `unwrap` of an `Err`) is embedded as
`none` in an `Option` result.  The external backend filesystem driver, the
file-descriptor table and the wall clock are out of scope of the repository
and are modelled from the spec (each such definition says so in its doc
comment); everything else is translated directly from the source.
-/

namespace ArceosVfs

/-- Kernel-computable embedding of Rust's `str::starts_with`: prefix test
on the character sequence. -/
def strStartsWith (s p : String) : Bool := decide (s.data.take p.data.length = p.data)

/-- Kernel-computable embedding of dropping `n` leading characters of a
string (the remainder `str::strip_prefix` returns). -/
def strDrop (s : String) (n : Nat) : String := ⟨s.data.drop n⟩

/-- The subset of `axerrno::LinuxError` values used by this layer. -/
inductive LinuxError where
  | EBADF
  | EINVAL
  | ENOTDIR
  | ENOENT
  | EMFILE
  | EFAULT
  | ERANGE
  | EPERM
  | EIO
deriving DecidableEq, Repr

/-- `ctypes::timespec`: seconds and nanoseconds.  `Default` zero-fills. -/
structure timespec where
  tv_sec : Int := 0
  tv_nsec : Int := 0
deriving DecidableEq, Repr

/-- `ctypes_ext.rs` line 3: `UTIME_NOW = 0x3FFFFFFF`. -/
def UTIME_NOW : Int := 0x3FFFFFFF

/-- `ctypes_ext.rs` line 4: `UTIME_OMIT = 0x3FFFFFFE`. -/
def UTIME_OMIT : Int := 0x3FFFFFFE

/-- `ctypes_ext.rs` line 5: `AT_FDCWD = -100`. -/
def AT_FDCWD : Int := -100

/-- `timespec::set_as_utime` (`ctypes_ext.rs` lines 12-20): `self` is the
current field value, `time` the candidate; `now` stands for the wall-clock
sample `timespec::now()` takes in the `UTIME_NOW` arm.  Returns the new
field value. -/
def set_as_utime (now self time : timespec) : timespec :=
  if time.tv_nsec = UTIME_NOW then now
  else if time.tv_nsec = UTIME_OMIT then self
  else time

/-- `axfs::fops::OpenOptions`.  Modelled from the spec: the backend options
descriptor with flags `read, write, append, truncate, create, create_new,
directory, execute` (spec section 3); the `axfs::fops` module itself is not
part of the repository sources. -/
structure OpenOptions where
  readFl : Bool := false
  writeFl : Bool := false
  appendFl : Bool := false
  truncateFl : Bool := false
  createFl : Bool := false
  create_new : Bool := false
  directoryFl : Bool := false
  executeFl : Bool := false
deriving DecidableEq, Repr

/-- `OpenOptions::new()`: every flag off. -/
def OpenOptions.new : OpenOptions := {}

/-- The attributes a backend file handle reports through `get_attr`:
file type tag, permission bits, size and block count.  Modelled from the
spec (the backend driver is an external collaborator). -/
structure FsFileMeta where
  ftype : Nat := 0
  perm : Nat := 0
  size : Nat := 0
  blocks : Nat := 0
deriving DecidableEq, Repr

/-- A backend regular-file handle (`axfs::fops::File`), abstracted to the
attributes `get_attr` reports and the byte contents `read_at` serves.
Modelled from the spec (backend driver is external). -/
structure FsFile where
  meta : FsFileMeta := {}
  contents : List Nat := []
deriving DecidableEq, Repr

/-- A backend directory handle (`axfs::fops::Directory`), abstracted to an
identity token.  Modelled from the spec (backend driver is external). -/
structure FsDir where
  id : Nat := 0
deriving DecidableEq, Repr

/-- The file-like object variants of `fs.rs`: `File` (lines 19-23) holds a
backend file handle plus the two timestamp-overlay fields, each
`timespec::default()` until set; `Directory` (lines 100-103) holds a backend
directory handle plus the path string it was opened with. -/
inductive FileLike where
  | file (f : FsFile) (st_atime st_mtime : timespec)
  | dir (d : FsDir) (path : String)
deriving DecidableEq, Repr

/-- `File::new` (`fs.rs` lines 26-32): wraps the backend handle with both
timestamp fields defaulted to zero. -/
def File.new (f : FsFile) : FileLike := .file f {} {}

/-- The fields of `ctypes::stat` that `File::stat` assigns; every other
field of the C struct is zero via `..Default::default()`. -/
structure Stat where
  st_ino : Nat := 0
  st_nlink : Nat := 0
  st_mode : Nat := 0
  st_uid : Nat := 0
  st_gid : Nat := 0
  st_size : Nat := 0
  st_blocks : Nat := 0
  st_blksize : Nat := 0
  st_atime : timespec := {}
  st_mtime : timespec := {}
deriving DecidableEq, Repr

/-- Body of `File::stat` (`fs.rs` lines 63-82) once `get_attr` has returned
`meta` and the overlay fields hold `a` and `m`:
`st_mode = (file_type << 12) | perm`, fixed inode 1, link count 1,
uid/gid 1000, block size 512, size and blocks from the backend attributes,
atime/mtime from the overlay. -/
def mkFileStat (meta : FsFileMeta) (a m : timespec) : Stat :=
  { st_ino := 1
    st_nlink := 1
    st_mode := (meta.ftype <<< 12) ||| meta.perm
    st_uid := 1000
    st_gid := 1000
    st_size := meta.size
    st_blocks := meta.blocks
    st_blksize := 512
    st_atime := a
    st_mtime := m }

/-- `stat` dispatch over the two `FileLike` impls: `File::stat`
(`fs.rs` lines 63-82) builds the snapshot, `Directory::stat`
(`fs.rs` lines 144-146) fails with `EBADF`. -/
def FileLike.statOp : FileLike → Except LinuxError Stat
  | .file f a m => .ok (mkFileStat f.meta a m)
  | .dir _ _ => .error .EBADF

/-- `read` dispatch: `File::read` (`fs.rs` lines 55-57) delegates to the
backend handle (result abstracted as `backend`); `Directory::read`
(`fs.rs` lines 136-138) fails with `EBADF`. -/
def FileLike.readOp (backend : Except LinuxError Nat) : FileLike → Except LinuxError Nat
  | .file _ _ _ => backend
  | .dir _ _ => .error .EBADF

/-- `write` dispatch: `File::write` (`fs.rs` lines 59-61) delegates to the
backend handle; `Directory::write` (`fs.rs` lines 140-142) fails with
`EBADF`. -/
def FileLike.writeOp (backend : Except LinuxError Nat) : FileLike → Except LinuxError Nat
  | .file _ _ _ => backend
  | .dir _ _ => .error .EBADF

/-- The file-descriptor table.  Modelled from the spec (section 5): an
external component mapping small non-negative integers to file-like
objects, with a bounded capacity. -/
structure FdTable where
  entries : List FileLike := []
  cap : Nat := 1024
deriving DecidableEq, Repr

/-- `fd_ops::get_file_like`.  Modelled from the spec (section 5):
`lookup(descriptor) -> object | BadFileDescriptor`. -/
def get_file_like (t : FdTable) (fd : Int) : Except LinuxError FileLike :=
  if fd < 0 then .error .EBADF
  else
    match t.entries.get? fd.toNat with
    | some o => .ok o
    | none => .error .EBADF

/-- `fd_ops::add_file_like`.  Modelled from the spec (sections 3 and 5):
`register(object) -> descriptor | TooManyOpenFiles`; the smallest free
integer is the next index since no close is modelled. -/
def add_file_like (t : FdTable) (o : FileLike) : Except LinuxError (Int × FdTable) :=
  if t.entries.length < t.cap then
    .ok ((t.entries.length : Int), { t with entries := t.entries ++ [o] })
  else .error .EMFILE

/-- In-place update of the object a descriptor maps to (the effect of
mutating a shared `FileLike` through its lock). -/
def setEntry (t : FdTable) (fd : Int) (o : FileLike) : FdTable :=
  { t with entries := t.entries.set fd.toNat o }

/-- `File::from_fd` (`fs.rs` lines 46-51): look the descriptor up, then
downcast to `File`; a failed downcast (the object is a `Directory`) yields
`EINVAL`.  Returns the backend handle and the two overlay fields. -/
def File.from_fd (t : FdTable) (fd : Int) : Except LinuxError (FsFile × timespec × timespec) :=
  match get_file_like t fd with
  | .error e => .error e
  | .ok (.file f a m) => .ok (f, a, m)
  | .ok (.dir _ _) => .error .EINVAL

/-- `Directory::from_fd` (`fs.rs` lines 123-128): look the descriptor up,
then downcast to `Directory`; a failed downcast (the object is a `File`)
yields `EINVAL`.  Returns the backend handle and the stored path. -/
def Directory.from_fd (t : FdTable) (fd : Int) : Except LinuxError (FsDir × String) :=
  match get_file_like t fd with
  | .error e => .error e
  | .ok (.dir d p) => .ok (d, p)
  | .ok (.file _ _ _) => .error .EINVAL

/-- `add_file_or_directory_fd` (`fs.rs` lines 271-303): try the file open
and registration; on any error, clone the options with `execute` forced on
and `create_new` cleared, try the directory open, remapping its `EINVAL` to
`ENOTDIR`, and register the `Directory` with the filename as its path. -/
def add_file_or_directory_fd
    (open_file : String → OpenOptions → Except LinuxError FsFile)
    (open_dir : String → OpenOptions → Except LinuxError FsDir)
    (filename : String) (options : OpenOptions) (t : FdTable) :
    Except LinuxError (Int × FdTable) :=
  let first : Except LinuxError (Int × FdTable) :=
    match open_file filename options with
    | .ok f => add_file_like t (File.new f)
    | .error e => .error e
  match first with
  | .ok r => .ok r
  | .error _ =>
    let options2 : OpenOptions := { options with executeFl := true, create_new := false }
    match open_dir filename options2 with
    | .error e2 => .error (if e2 = .EINVAL then .ENOTDIR else e2)
    | .ok d =>
      match add_file_like t (.dir d filename) with
      | .ok r => .ok r
      | .error e => .error e

/-- The external collaborators a syscall may call: the backend open entry
points (absolute paths resolve through the cwd-based Path/Mount Resolver,
the `At` variants are anchored at an open backend directory handle) and the
`axfs::api` helpers.  Modelled from the spec (sections 2 and 4.3): the
backend driver and resolver are external. -/
structure Backend where
  openFile : String → OpenOptions → Except LinuxError FsFile
  openDir : String → OpenOptions → Except LinuxError FsDir
  openFileAt : FsDir → String → OpenOptions → Except LinuxError FsFile
  openDirAt : FsDir → String → OpenOptions → Except LinuxError FsDir
  createDir : String → Except LinuxError Unit
  createDirAt : FsDir → String → Except LinuxError Unit
  removeFile : String → Except LinuxError Unit
  removeFileAt : FsDir → String → Except LinuxError Unit

/-- `sys_open` (`fs.rs` lines 219-234) after flag translation produced
`opts`: with `O_DIRECTORY` set, `Directory::from_path` opens the path as a
directory and registers it; otherwise the file-or-directory fallback runs
against the cwd-resolving backend entry points. -/
def sys_open (B : Backend) (t : FdTable) (filename : String) (opts : OpenOptions) :
    Except LinuxError (Int × FdTable) :=
  if opts.directoryFl then
    match B.openDir filename opts with
    | .error e => .error e
    | .ok d => add_file_like t (.dir d filename)
  else
    add_file_or_directory_fd B.openFile B.openDir filename opts t

/-- `sys_openat` (`fs.rs` lines 236-267): an absolute path or
`dirfd == AT_FDCWD` delegates to `sys_open`; otherwise the dirfd must
downcast to a `Directory` and the fallback runs against its anchored open
entry points. -/
def sys_openat (B : Backend) (t : FdTable) (dirfd : Int) (filename : String)
    (opts : OpenOptions) : Except LinuxError (Int × FdTable) :=
  if strStartsWith filename "/" ∨ dirfd = AT_FDCWD then
    sys_open B t filename opts
  else
    match Directory.from_fd t dirfd with
    | .error e => .error e
    | .ok (d, _) =>
      add_file_or_directory_fd (fun p o => B.openFileAt d p o) (fun p o => B.openDirAt d p o)
        filename opts t

/-- `sys_mkdirat` (`fs.rs` lines 397-412): an absolute path or
`dirfd == AT_FDCWD` delegates to `axfs::api::create_dir`; otherwise the
dirfd must downcast to a `Directory` and its `create_dir` runs. -/
def sys_mkdirat (B : Backend) (t : FdTable) (dirfd : Int) (pathname : String) :
    Except LinuxError Int :=
  if strStartsWith pathname "/" ∨ dirfd = AT_FDCWD then
    match B.createDir pathname with
    | .ok _ => .ok 0
    | .error e => .error e
  else
    match Directory.from_fd t dirfd with
    | .error e => .error e
    | .ok (d, _) =>
      match B.createDirAt d pathname with
      | .ok _ => .ok 0
      | .error e => .error e

/-- `sys_unlinkat` (`fs.rs` lines 459-474): an absolute path or
`dirfd == AT_FDCWD` delegates to `axfs::api::remove_file`; otherwise the
dirfd must downcast to a `Directory` and its `remove_file` runs. -/
def sys_unlinkat (B : Backend) (t : FdTable) (dirfd : Int) (pathname : String) :
    Except LinuxError Int :=
  if strStartsWith pathname "/" ∨ dirfd = AT_FDCWD then
    match B.removeFile pathname with
    | .ok _ => .ok 0
    | .error e => .error e
  else
    match Directory.from_fd t dirfd with
    | .error e => .error e
    | .ok (d, _) =>
      match B.removeFileAt d pathname with
      | .ok _ => .ok 0
      | .error e => .error e

/-- `sys_utimensat` (`fs.rs` lines 498-550).  `now` is the wall-clock
sample; a null `pathname` or `times` pointer is `none`.  The result pairs
the return value with the updated descriptor table.  Note the source tests
`dirfd == -AT_FDCWD` (that is, `+100`) for its cwd branch, and the path
branch opens and registers the target but never applies the timestamps
(the source carries a TODO to that effect). -/
def sys_utimensat (B : Backend) (now : timespec) (t : FdTable) (dirfd : Int)
    (pathname : Option String) (times : Option (timespec × timespec)) :
    Except LinuxError (Int × FdTable) :=
  if dirfd ≠ AT_FDCWD ∧ dirfd < 0 then .error .EBADF
  else
    let tp : timespec × timespec := match times with
      | none => (now, now)
      | some ab => ab
    match pathname with
    | none =>
      match File.from_fd t dirfd with
      | .error e => .error e
      | .ok (f, a, m) =>
        let a2 := set_as_utime now a tp.1
        let m2 := set_as_utime now m tp.2
        .ok (0, setEntry t dirfd (.file f a2 m2))
    | some path =>
      if dirfd = -AT_FDCWD then
        match add_file_or_directory_fd (fun p _ => B.openFile p OpenOptions.new)
            (fun p _ => B.openDir p OpenOptions.new) path OpenOptions.new t with
        | .error e => .error e
        | .ok (_, t2) => .ok (0, t2)
      else
        match Directory.from_fd t dirfd with
        | .error e => .error e
        | .ok (d, _) =>
          match add_file_or_directory_fd (fun p _ => B.openFileAt d p OpenOptions.new)
              (fun p _ => B.openDirAt d p OpenOptions.new) path OpenOptions.new t with
          | .error e => .error e
          | .ok (_, t2) => .ok (0, t2)

/-- `sys_stat` (`fs.rs` lines 349-365): a null output buffer is `EFAULT`;
otherwise the path is opened read-only through the backend and the snapshot
a fresh `File` wrapper produces is written.  The returned `Stat` is the
value written to the buffer. -/
def sys_stat (B : Backend) (path : String) (bufNull : Bool) : Except LinuxError Stat :=
  if bufNull then .error .EFAULT
  else
    match B.openFile path { OpenOptions.new with readFl := true } with
    | .error e => .error e
    | .ok f => (File.new f).statOp

/-- `sys_lstat` (`fs.rs` lines 385-395): a null output buffer is `EFAULT`;
otherwise `Default::default()` is written (a stub marked TODO in the
source) and 0 returned.  The returned `Stat` is the value written. -/
def sys_lstat (path : String) (bufNull : Bool) : Except LinuxError Stat :=
  if bufNull then .error .EFAULT
  else .ok {}

/-- `sys_getcwd` (`fs.rs` lines 424-441).  `cwdRes` is what
`axfs::api::current_dir` returns, as its byte sequence; `buf` is the user
buffer of `size` bytes, `none` when the pointer is null.  The result is the
returned pointer (`none` for null) paired with the buffer contents. -/
def sys_getcwd (cwdRes : Except LinuxError (List Nat)) (buf : Option (List Nat)) :
    Except LinuxError (Option (List Nat)) :=
  match buf with
  | none => .ok none
  | some dst =>
    match cwdRes with
    | .error e => .error e
    | .ok cwd =>
      if cwd.length < dst.length then
        .ok (some (cwd ++ [0] ++ dst.drop (cwd.length + 1)))
      else .error .ERANGE

/-- Bytes `read_at` serves from backend contents `c` at `offset`, into a
zero-initialised buffer of `n` bytes. -/
def read_at (c : List Nat) (offset n : Nat) : List Nat :=
  (List.range n).map (fun i => c.getD (offset + i) 0)

/-- `read_file` (`fs.rs` lines 195-213): look the descriptor up, take
`st_size` from its `stat`, downcast to `File` (failure is `EBADF`); an
`offset` at or past the file size is `EINVAL`, otherwise
`min(size, file_size - offset)` bytes are read at `offset`. -/
def read_file (t : FdTable) (fd : Int) (offset size : Nat) : Except LinuxError (List Nat) :=
  match get_file_like t fd with
  | .error e => .error e
  | .ok fl =>
    match fl.statOp with
    | .error e => .error e
    | .ok st =>
      match fl with
      | .dir _ _ => .error .EBADF
      | .file f _ _ =>
        if offset ≥ st.st_size then .error .EINVAL
        else .ok (read_at f.contents offset (min size (st.st_size - offset)))

/-- The subset of `axerrno::AxError` used by the mount module. -/
inductive AxError where
  | InvalidInput
  | NotFound
  | Io
deriving DecidableEq, Repr

/-- `to_root_path` (`mount.rs` lines 46-60): an empty path is
`InvalidInput`; an absolute path is returned unchanged; otherwise a leading
`./` is stripped and the remainder joined to the current directory with a
single `/`.  `currentDir` is what `crate::root::current_dir` returns. -/
def to_root_path (currentDir : Except AxError String) (path : String) :
    Except AxError String :=
  if path = "" then .error .InvalidInput
  else if strStartsWith path "/" then .ok path
  else
    let p := if strStartsWith path "./" then strDrop path 2 else path
    match currentDir with
    | .error e => .error e
    | .ok cwd => .ok (cwd ++ "/" ++ p)

/-- An already-mounted backend filesystem instance.  Modelled from the spec
(section 4.4): `crate::root` is external to the repository sources. -/
structure FsInst where
  id : Nat := 0
deriving DecidableEq, Repr

/-- `mount` (`mount.rs` lines 7-37), with `crate::root::find_mounted_fs`,
`crate::root::mount_fs` and `crate::root::current_dir` as parameters: a
source that is not an already-mounted instance returns `-1`; then the
target is normalised and the result unwrapped — an `Err` there is a panic,
embedded as `none`; a `mount_fs` failure returns `-1`, success `0`. -/
def mount (findMountedFs : String → Except AxError FsInst)
    (mount_fs : String → FsInst → Except AxError Unit)
    (currentDir : Except AxError String)
    (source target : String) : Option Int :=
  match findMountedFs source with
  | .error _ => some (-1)
  | .ok fs =>
    match to_root_path currentDir target with
    | .error _ => none
    | .ok tgt =>
      match mount_fs tgt fs with
      | .error _ => some (-1)
      | .ok _ => some 0

/-- A concrete backend attribute record used to instantiate theorems. -/
def metaDemo : FsFileMeta := { ftype := 8, perm := 420, size := 5, blocks := 1 }

/-- A concrete backend file handle used to instantiate theorems. -/
def fileDemo : FsFile := { meta := metaDemo, contents := [10, 20, 30, 40, 50] }

/-- A concrete backend in which every open and every mutation succeeds. -/
def Bdemo : Backend :=
  { openFile := fun _ _ => .ok fileDemo
    openDir := fun _ _ => .ok {}
    openFileAt := fun _ _ _ => .ok fileDemo
    openDirAt := fun _ _ _ => .ok {}
    createDir := fun _ => .ok ()
    createDirAt := fun _ _ => .ok ()
    removeFile := fun _ => .ok ()
    removeFileAt := fun _ _ => .ok () }

/-- A concrete backend in which every file open fails with `ENOENT` and
every directory open succeeds. -/
def BdirOnly : Backend :=
  { Bdemo with
    openFile := fun _ _ => .error .ENOENT
    openFileAt := fun _ _ _ => .error .ENOENT }

/-- A concrete mounted-filesystem lookup knowing only the source `dev`. -/
def findDemo : String → Except AxError FsInst :=
  fun s => if s = "dev" then .ok {} else .error .NotFound

/-- A concrete `mount_fs` that always succeeds. -/
def mountFsDemo : String → FsInst → Except AxError Unit := fun _ _ => .ok ()

/-- A one-entry descriptor table whose descriptor 0 is a `File`. -/
def tblFile : FdTable := { entries := [.file fileDemo {} {}], cap := 1024 }

/-- A one-entry descriptor table whose descriptor 0 is a `Directory`. -/
def tblDir : FdTable := { entries := [.dir {} "/d"], cap := 1024 }

/-- The empty descriptor table. -/
def tblEmpty : FdTable := { entries := [], cap := 1024 }

instance {ε α : Type} [DecidableEq ε] [DecidableEq α] : DecidableEq (Except ε α) :=
  fun a b =>
    match a, b with
    | .ok x, .ok y => decidable_of_iff (x = y) (by simp)
    | .error x, .error y => decidable_of_iff (x = y) (by simp)
    | .ok _, .error _ => isFalse (by simp)
    | .error _, .ok _ => isFalse (by simp)

end ArceosVfs

namespace ArceosVfs

/-- Registration appends at the next index, so looking that index up in the
updated table returns the registered object. -/
theorem get_file_like_append (t : FdTable) (o : FileLike) :
    get_file_like { t with entries := t.entries ++ [o] } (t.entries.length : Int) = .ok o := by
  simp only [get_file_like]
  rw [if_neg (not_lt.mpr (Int.natCast_nonneg _))]
  rw [Int.toNat_natCast, List.get?_eq_getElem?, List.getElem?_concat_length]

/-- A successful `add_file_like` returns the next index and the appended
table. -/
theorem add_file_like_ok (t : FdTable) (o : FileLike) (fd : Int) (t2 : FdTable)
    (h : add_file_like t o = .ok (fd, t2)) :
    fd = (t.entries.length : Int) ∧ t2 = { t with entries := t.entries ++ [o] } := by
  unfold add_file_like at h
  split at h
  · injection h with h'
    exact ⟨congrArg Prod.fst h'.symm, congrArg Prod.snd h'.symm⟩
  · exact absurd h (by simp)

/-- C7: a successful `stat` on a `File` object returns the snapshot with
mode word `(file_type << 12) | permission_bits`, inode 1, link count 1,
uid and gid 1000, block size 512, size and blocks from the backend
attributes, and atime/mtime from the per-file timestamp overlay, which
`File::new` initialises to zero. -/
theorem file_stat_snapshot (f : FsFile) (a m : timespec) :
    FileLike.statOp (.file f a m) =
      .ok { st_ino := 1, st_nlink := 1,
            st_mode := (f.meta.ftype <<< 12) ||| f.meta.perm,
            st_uid := 1000, st_gid := 1000,
            st_size := f.meta.size, st_blocks := f.meta.blocks,
            st_blksize := 512, st_atime := a, st_mtime := m }
    ∧ File.new f = .file f {} {} :=
  ⟨rfl, rfl⟩

/-- C8: every `Directory` object fails `read`, `write` and `stat` with
`EBADF`, whatever the backend would answer; and opening an existing
directory path without `O_DIRECTORY` through `sys_open`'s fallback (a file
open that fails, a directory open that succeeds) registers exactly such a
`Directory` object. -/
theorem directory_ops_ebadf (d : FsDir) (p : String) (backend : Except LinuxError Nat) :
    FileLike.readOp backend (.dir d p) = .error .EBADF
    ∧ FileLike.writeOp backend (.dir d p) = .error .EBADF
    ∧ FileLike.statOp (.dir d p) = .error .EBADF
    ∧ (∀ (B : Backend) (fname : String) (opts : OpenOptions) (t : FdTable)
        (e : LinuxError) (d2 : FsDir),
        opts.directoryFl = false →
        B.openFile fname opts = .error e →
        B.openDir fname { opts with executeFl := true, create_new := false } = .ok d2 →
        t.entries.length < t.cap →
        sys_open B t fname opts =
          .ok ((t.entries.length : Int),
               { t with entries := t.entries ++ [.dir d2 fname] })
        ∧ get_file_like { t with entries := t.entries ++ [.dir d2 fname] }
            (t.entries.length : Int) = .ok (.dir d2 fname)) := by
  refine ⟨rfl, rfl, rfl, ?_⟩
  intro B fname opts t e d2 hdir hfile hdirok hcap
  simp only [hdir] at hdirok
  constructor
  · simp only [sys_open, hdir, Bool.false_eq_true, if_false,
      add_file_or_directory_fd, hfile, hdirok, add_file_like, if_pos hcap]
  · simp only [get_file_like]
    rw [if_neg (not_lt.mpr (Int.natCast_nonneg _))]
    have h : ((t.entries.length : Int)).toNat = t.entries.length := Int.toNat_natCast _
    rw [h, List.get?_eq_getElem?, List.getElem?_concat_length]

/-- Witness for `directory_ops_ebadf` at a concrete directory and backend. -/
theorem directory_ops_ebadf_witness :
    FileLike.readOp (.ok 0) (.dir {} "/d") = .error .EBADF
    ∧ sys_open BdirOnly tblEmpty "/d" {} =
        .ok ((tblEmpty.entries.length : Int),
             { tblEmpty with entries := tblEmpty.entries ++ [.dir {} "/d"] }) :=
  ⟨(directory_ops_ebadf {} "/d" (.ok 0)).1,
   ((directory_ops_ebadf {} "/d" (.ok 0)).2.2.2 BdirOnly "/d" {} tblEmpty .ENOENT {}
      rfl rfl rfl (by decide)).1⟩

/-- C9: `getcwd` returns null for a null buffer; with a buffer of
`size ≥ len(cwd)+1` bytes it copies the cwd bytes, writes a 0 terminator at
index `len(cwd)`, leaves the tail untouched and returns the buffer; with
`size ≤ len(cwd)` it fails with `ERANGE` and writes nothing. -/
theorem sys_getcwd_spec (cwd dst : List Nat) :
    (∀ c : Except LinuxError (List Nat), sys_getcwd c none = .ok none)
    ∧ (cwd.length + 1 ≤ dst.length →
        ∃ out, sys_getcwd (.ok cwd) (some dst) = .ok (some out)
          ∧ out.take cwd.length = cwd
          ∧ out.getD cwd.length 1 = 0
          ∧ out.length = dst.length
          ∧ out.drop (cwd.length + 1) = dst.drop (cwd.length + 1))
    ∧ (dst.length ≤ cwd.length →
        sys_getcwd (.ok cwd) (some dst) = .error .ERANGE) := by
  refine ⟨fun c => rfl, ?_, ?_⟩
  · intro hlen
    refine ⟨cwd ++ [0] ++ dst.drop (cwd.length + 1), ?_, ?_, ?_, ?_, ?_⟩
    · simp only [sys_getcwd]
      rw [if_pos (by omega)]
    · rw [List.append_assoc]
      exact List.take_left cwd _
    · rw [List.append_assoc, List.getD, List.get?_eq_getElem?,
        List.getElem?_append_right (le_refl cwd.length)]
      simp
    · simp only [List.length_append, List.length_drop, List.length_cons,
        List.length_nil]
      omega
    · have h1 : (cwd ++ [0]).length = cwd.length + 1 := by simp
      calc (cwd ++ [0] ++ dst.drop (cwd.length + 1)).drop (cwd.length + 1)
          = (cwd ++ [0] ++ dst.drop (cwd.length + 1)).drop ((cwd ++ [0]).length) := by
            rw [h1]
        _ = dst.drop (cwd.length + 1) := List.drop_left _ _
  · intro hlen
    simp only [sys_getcwd]
    rw [if_neg (by omega)]

/-- Witness for `sys_getcwd_spec` with cwd bytes `[47]` and a three-byte
and a one-byte buffer. -/
theorem sys_getcwd_spec_witness :
    (∃ out, sys_getcwd (.ok [47]) (some [9, 9, 9]) = .ok (some out)
      ∧ out.take 1 = [47] ∧ out.getD 1 1 = 0 ∧ out.length = 3
      ∧ out.drop 2 = [9])
    ∧ sys_getcwd (.ok [47]) (some [9]) = .error .ERANGE :=
  ⟨(sys_getcwd_spec [47] [9, 9, 9]).2.1 (by decide),
   (sys_getcwd_spec [47] [9]).2.2 (by decide)⟩

/-- C10: on a `File` descriptor, `read_file` fails with `EINVAL` whenever
`offset ≥ file_size` (so also at `offset = file_size`), and otherwise
returns exactly `min(size, file_size − offset)` bytes read starting at
`offset`. -/
theorem read_file_spec (t : FdTable) (fd : Int) (f : FsFile) (a m : timespec)
    (offset size : Nat) (h : get_file_like t fd = .ok (.file f a m)) :
    (f.meta.size ≤ offset → read_file t fd offset size = .error .EINVAL)
    ∧ (offset < f.meta.size →
        read_file t fd offset size =
          .ok (read_at f.contents offset (min size (f.meta.size - offset)))
        ∧ (read_at f.contents offset (min size (f.meta.size - offset))).length =
            min size (f.meta.size - offset)) := by
  constructor
  · intro hle
    simp only [read_file, h, FileLike.statOp, mkFileStat]
    rw [if_pos hle]
  · intro hlt
    constructor
    · simp only [read_file, h, FileLike.statOp, mkFileStat]
      rw [if_neg (not_le.mpr hlt)]
    · simp [read_at]

/-- Witness for `read_file_spec` on the concrete table `tblFile`:
descriptor 0 has size 5; a read at offset 5 is `EINVAL`, a read of 10
bytes at offset 3 returns the last two bytes. -/
theorem read_file_spec_witness :
    read_file tblFile 0 5 10 = .error .EINVAL
    ∧ read_file tblFile 0 3 10 = .ok [40, 50] :=
  ⟨(read_file_spec tblFile 0 fileDemo {} {} 5 10 (by decide)).1 (by decide),
   by
    have h := ((read_file_spec tblFile 0 fileDemo {} {} 3 10 (by decide)).2
      (by decide)).1
    rw [h]
    decide⟩

/-- C3: the unified open first attempts the backend file open (registering
a `File` on success); on failure it retries the backend directory open with
a clone of the options whose execute capability is forced on and whose
`create_new` is cleared; a directory-attempt `EINVAL` is remapped to
`ENOTDIR`, any other directory-attempt error propagates unchanged; and
every success hands the caller a descriptor registered in the table mapping
to a `File` or to a `Directory` carrying the opened path. -/
theorem add_file_or_directory_fd_spec
    (open_file : String → OpenOptions → Except LinuxError FsFile)
    (open_dir : String → OpenOptions → Except LinuxError FsDir)
    (fname : String) (opts : OpenOptions) (t : FdTable) :
    (∀ f, open_file fname opts = .ok f → t.entries.length < t.cap →
      add_file_or_directory_fd open_file open_dir fname opts t =
        .ok ((t.entries.length : Int), { t with entries := t.entries ++ [File.new f] }))
    ∧ (∀ e, open_file fname opts = .error e →
        (open_dir fname { opts with executeFl := true, create_new := false } =
            .error .EINVAL →
          add_file_or_directory_fd open_file open_dir fname opts t = .error .ENOTDIR)
        ∧ (∀ e2, open_dir fname { opts with executeFl := true, create_new := false } =
              .error e2 → e2 ≠ .EINVAL →
            add_file_or_directory_fd open_file open_dir fname opts t = .error e2)
        ∧ (∀ d, open_dir fname { opts with executeFl := true, create_new := false } =
              .ok d → t.entries.length < t.cap →
            add_file_or_directory_fd open_file open_dir fname opts t =
              .ok ((t.entries.length : Int),
                   { t with entries := t.entries ++ [.dir d fname] })))
    ∧ (∀ fd t2, add_file_or_directory_fd open_file open_dir fname opts t = .ok (fd, t2) →
        ∃ o, get_file_like t2 fd = .ok o
          ∧ ((∃ f, o = File.new f) ∨ ∃ d, o = .dir d fname)) := by
  refine ⟨?_, ?_, ?_⟩
  · intro f hf hcap
    simp only [add_file_or_directory_fd, hf, add_file_like, if_pos hcap]
  · intro e he
    refine ⟨?_, ?_, ?_⟩
    · intro hd
      simp only [add_file_or_directory_fd, he, hd]
      rfl
    · intro e2 hd hne
      simp only [add_file_or_directory_fd, he, hd]
      rw [if_neg hne]
    · intro d hd hcap
      simp only [add_file_or_directory_fd, he, hd, add_file_like, if_pos hcap]
  · intro fd t2 hok
    simp only [add_file_or_directory_fd] at hok
    cases hf : open_file fname opts with
    | ok f =>
      rw [hf] at hok
      simp only at hok
      cases ha : add_file_like t (File.new f) with
      | ok r =>
        rw [ha] at hok
        simp only at hok
        injection hok with hok
        subst hok
        obtain ⟨h1, h2⟩ := add_file_like_ok t (File.new f) fd t2 ha
        refine ⟨File.new f, ?_, .inl ⟨f, rfl⟩⟩
        rw [h1, h2]
        exact get_file_like_append t (File.new f)
      | error e =>
        rw [ha] at hok
        simp only at hok
        cases hd : open_dir fname { opts with executeFl := true, create_new := false } with
        | error e2 => rw [hd] at hok; exact absurd hok (by simp)
        | ok d =>
          rw [hd] at hok
          simp only at hok
          cases ha2 : add_file_like t (.dir d fname) with
          | error e3 => rw [ha2] at hok; exact absurd hok (by simp)
          | ok r =>
            rw [ha2] at hok
            simp only at hok
            injection hok with hok
            subst hok
            obtain ⟨h1, h2⟩ := add_file_like_ok t (.dir d fname) fd t2 ha2
            refine ⟨.dir d fname, ?_, .inr ⟨d, rfl⟩⟩
            rw [h1, h2]
            exact get_file_like_append t (.dir d fname)
    | error e =>
      rw [hf] at hok
      simp only at hok
      cases hd : open_dir fname { opts with executeFl := true, create_new := false } with
      | error e2 => rw [hd] at hok; exact absurd hok (by simp)
      | ok d =>
        rw [hd] at hok
        simp only at hok
        cases ha2 : add_file_like t (.dir d fname) with
        | error e3 => rw [ha2] at hok; exact absurd hok (by simp)
        | ok r =>
          rw [ha2] at hok
          simp only at hok
          injection hok with hok
          subst hok
          obtain ⟨h1, h2⟩ := add_file_like_ok t (.dir d fname) fd t2 ha2
          refine ⟨.dir d fname, ?_, .inr ⟨d, rfl⟩⟩
          rw [h1, h2]
          exact get_file_like_append t (.dir d fname)

/-- Witness for `add_file_or_directory_fd_spec` at concrete backends: a
successful file open registers the file; with the file open failing, a
directory-attempt `EINVAL` surfaces as `ENOTDIR` and a directory-attempt
`ENOENT` propagates unchanged. -/
theorem add_file_or_directory_fd_spec_witness :
    add_file_or_directory_fd Bdemo.openFile Bdemo.openDir "/f" {} tblEmpty =
      .ok ((tblEmpty.entries.length : Int),
           { tblEmpty with entries := tblEmpty.entries ++ [File.new fileDemo] })
    ∧ add_file_or_directory_fd (fun _ _ => .error .ENOENT)
        (fun _ _ => .error .EINVAL) "/f" {} tblEmpty = .error .ENOTDIR
    ∧ add_file_or_directory_fd (fun _ _ => .error .ENOENT)
        (fun _ _ => .error .ENOENT) "/f" {} tblEmpty = .error .ENOENT :=
  ⟨(add_file_or_directory_fd_spec Bdemo.openFile Bdemo.openDir "/f" {} tblEmpty).1
      fileDemo rfl (by decide),
   ((add_file_or_directory_fd_spec (fun _ _ => .error .ENOENT)
      (fun _ _ => .error .EINVAL) "/f" {} tblEmpty).2.1 .ENOENT rfl).1 rfl,
   ((add_file_or_directory_fd_spec (fun _ _ => .error .ENOENT)
      (fun _ _ => .error .ENOENT) "/f" {} tblEmpty).2.1 .ENOENT rfl).2.1 .ENOENT rfl
      (by decide)⟩

/-- C4: `set_as_utime` sets the field to the current wall-clock time when
the candidate's nanosecond sub-field is `UTIME_NOW`, leaves it unchanged
when it is `UTIME_OMIT`, and otherwise sets it to the literal candidate;
and `utimensat` with a null `times` pointer (targeting an open `File`
descriptor) sets both atime and mtime to the current time — the wall-clock
sample's nanosecond field is below 10⁹ and so never collides with the
sentinels. -/
theorem set_as_utime_spec (B : Backend) (now self cand : timespec) (t : FdTable)
    (fd : Int) (f : FsFile) (a m : timespec) :
    (cand.tv_nsec = UTIME_NOW → set_as_utime now self cand = now)
    ∧ (cand.tv_nsec = UTIME_OMIT → set_as_utime now self cand = self)
    ∧ (cand.tv_nsec ≠ UTIME_NOW → cand.tv_nsec ≠ UTIME_OMIT →
        set_as_utime now self cand = cand)
    ∧ (0 ≤ fd → get_file_like t fd = .ok (.file f a m) → now.tv_nsec < 1000000000 →
        sys_utimensat B now t fd none none = .ok (0, setEntry t fd (.file f now now))) := by
  refine ⟨?_, ?_, ?_, ?_⟩
  · intro h
    simp only [set_as_utime, if_pos h]
  · intro h
    have h' : cand.tv_nsec ≠ UTIME_NOW := by
      rw [h]; simp only [UTIME_OMIT, UTIME_NOW]; omega
    simp only [set_as_utime, if_neg h', if_pos h]
  · intro h1 h2
    simp only [set_as_utime, if_neg h1, if_neg h2]
  · intro hfd hget hnow
    have hguard : ¬(fd ≠ AT_FDCWD ∧ fd < 0) := fun hc => absurd hfd (not_le.mpr hc.2)
    have hne1 : now.tv_nsec ≠ UTIME_NOW := by simp only [UTIME_NOW]; omega
    have hne2 : now.tv_nsec ≠ UTIME_OMIT := by simp only [UTIME_OMIT]; omega
    simp only [sys_utimensat, if_neg hguard, File.from_fd, hget, set_as_utime,
      if_neg hne1, if_neg hne2]

/-- Witness for `set_as_utime_spec` at concrete timestamps and the
one-file table: the `UTIME_NOW` candidate yields now, the `UTIME_OMIT`
candidate keeps the old value, a literal candidate is stored verbatim, and
a null-times `utimensat` on descriptor 0 stamps both fields with now. -/
theorem set_as_utime_spec_witness :
    set_as_utime ⟨9, 5⟩ ⟨1, 2⟩ ⟨3, UTIME_NOW⟩ = ⟨9, 5⟩
    ∧ set_as_utime ⟨9, 5⟩ ⟨1, 2⟩ ⟨3, UTIME_OMIT⟩ = ⟨1, 2⟩
    ∧ set_as_utime ⟨9, 5⟩ ⟨1, 2⟩ ⟨3, 4⟩ = ⟨3, 4⟩
    ∧ sys_utimensat Bdemo ⟨9, 5⟩ tblFile 0 none none =
        .ok (0, setEntry tblFile 0 (.file fileDemo ⟨9, 5⟩ ⟨9, 5⟩)) :=
  ⟨(set_as_utime_spec Bdemo ⟨9, 5⟩ ⟨1, 2⟩ ⟨3, UTIME_NOW⟩ tblFile 0 fileDemo {} {}).1 rfl,
   (set_as_utime_spec Bdemo ⟨9, 5⟩ ⟨1, 2⟩ ⟨3, UTIME_OMIT⟩ tblFile 0 fileDemo {} {}).2.1 rfl,
   (set_as_utime_spec Bdemo ⟨9, 5⟩ ⟨1, 2⟩ ⟨3, 4⟩ tblFile 0 fileDemo {} {}).2.2.1
      (by decide) (by decide),
   (set_as_utime_spec Bdemo ⟨9, 5⟩ ⟨1, 2⟩ ⟨3, 4⟩ tblFile 0 fileDemo {} {}).2.2.2
      (by decide) (by decide) (by decide)⟩

/-- C2 counterexample: descriptor 0 of `tblFile` is an open `File`, so it
does not refer to a `Directory`; yet `mkdirat` with it and a relative path
fails with `EINVAL` (the downcast error of `Directory::from_fd`), not with
`EBADF` as the claim states. -/
theorem dirfd_downcast_cex :
    sys_mkdirat Bdemo tblFile 0 "rel" = .error .EINVAL
    ∧ LinuxError.EINVAL ≠ LinuxError.EBADF := by
  refine ⟨?_, by decide⟩
  rfl

/-- C2 amended: for a relative path and a non-negative dirfd, a dirfd
unknown to the descriptor table fails with `EBADF`, while a dirfd that
refers to a `File` (downcast failure) fails with `EINVAL`; this holds
uniformly across `openat`, `mkdirat`, `unlinkat`, and — for dirfd ≠ 100,
the value its path branch mistakenly compares against as the cwd
sentinel — `utimensat`. -/
theorem dirfd_resolution_uniform (B : Backend) (t : FdTable) (fd : Int)
    (path : String) (opts : OpenOptions) (now : timespec)
    (times : Option (timespec × timespec))
    (hrel : strStartsWith path "/" = false) (hfd : 0 ≤ fd) :
    (get_file_like t fd = .error .EBADF →
      sys_openat B t fd path opts = .error .EBADF
      ∧ sys_mkdirat B t fd path = .error .EBADF
      ∧ sys_unlinkat B t fd path = .error .EBADF
      ∧ (fd ≠ -AT_FDCWD → sys_utimensat B now t fd (some path) times = .error .EBADF))
    ∧ (∀ f a m, get_file_like t fd = .ok (.file f a m) →
        sys_openat B t fd path opts = .error .EINVAL
        ∧ sys_mkdirat B t fd path = .error .EINVAL
        ∧ sys_unlinkat B t fd path = .error .EINVAL
        ∧ (fd ≠ -AT_FDCWD → sys_utimensat B now t fd (some path) times = .error .EINVAL)) := by
  have hnotat : fd ≠ AT_FDCWD := by
    intro h
    rw [h] at hfd
    simp only [AT_FDCWD] at hfd
    omega
  have hbranch : ¬(strStartsWith path "/" = true ∨ fd = AT_FDCWD) := by
    rw [hrel]
    simp only [Bool.false_eq_true, false_or]
    exact hnotat
  have hguard : ¬(fd ≠ AT_FDCWD ∧ fd < 0) := fun hc => absurd hfd (not_le.mpr hc.2)
  constructor
  · intro hget
    refine ⟨?_, ?_, ?_, ?_⟩
    · simp only [sys_openat, if_neg hbranch, Directory.from_fd, hget]
    · simp only [sys_mkdirat, if_neg hbranch, Directory.from_fd, hget]
    · simp only [sys_unlinkat, if_neg hbranch, Directory.from_fd, hget]
    · intro h100
      simp only [sys_utimensat, if_neg hguard, if_neg h100, Directory.from_fd, hget]
  · intro f a m hget
    refine ⟨?_, ?_, ?_, ?_⟩
    · simp only [sys_openat, if_neg hbranch, Directory.from_fd, hget]
    · simp only [sys_mkdirat, if_neg hbranch, Directory.from_fd, hget]
    · simp only [sys_unlinkat, if_neg hbranch, Directory.from_fd, hget]
    · intro h100
      simp only [sys_utimensat, if_neg hguard, if_neg h100, Directory.from_fd, hget]

/-- Witness for `dirfd_resolution_uniform`: descriptor 0 is unknown in the
empty table (all four calls fail `EBADF`) and is a `File` in `tblFile`
(all four fail `EINVAL`). -/
theorem dirfd_resolution_uniform_witness :
    (sys_openat Bdemo tblEmpty 0 "rel" {} = .error .EBADF
      ∧ sys_mkdirat Bdemo tblEmpty 0 "rel" = .error .EBADF
      ∧ sys_unlinkat Bdemo tblEmpty 0 "rel" = .error .EBADF
      ∧ sys_utimensat Bdemo ⟨9, 5⟩ tblEmpty 0 (some "rel") none = .error .EBADF)
    ∧ (sys_openat Bdemo tblFile 0 "rel" {} = .error .EINVAL
      ∧ sys_mkdirat Bdemo tblFile 0 "rel" = .error .EINVAL
      ∧ sys_unlinkat Bdemo tblFile 0 "rel" = .error .EINVAL
      ∧ sys_utimensat Bdemo ⟨9, 5⟩ tblFile 0 (some "rel") none = .error .EINVAL) := by
  have h1 := (dirfd_resolution_uniform Bdemo tblEmpty 0 "rel" {} ⟨9, 5⟩ none
    (by decide) (by decide)).1 (by decide)
  have h2 := (dirfd_resolution_uniform Bdemo tblFile 0 "rel" {} ⟨9, 5⟩ none
    (by decide) (by decide)).2 fileDemo {} {} (by decide)
  exact ⟨⟨h1.1, h1.2.1, h1.2.2.1, h1.2.2.2 (by decide)⟩,
         ⟨h2.1, h2.2.1, h2.2.2.1, h2.2.2.2 (by decide)⟩⟩

/-- C5 counterexample: on path `/f` of a backend where the open succeeds,
`stat` writes the populated snapshot (inode 1, block size 512, …) while
`lstat` writes the all-zero default snapshot; the two snapshots differ, so
`lstat` does not behave identically to `stat`. -/
theorem lstat_stub_cex :
    sys_stat Bdemo "/f" false = .ok (mkFileStat metaDemo {} {})
    ∧ sys_lstat "/f" false = .ok {}
    ∧ mkFileStat metaDemo {} {} ≠ ({} : Stat) := by
  refine ⟨rfl, rfl, by decide⟩

/-- C5 amended: `lstat` does not treat symbolic links specially, but it is
not equivalent to `stat`: with a non-null buffer it writes the default
zero-valued `Stat` for every path (a stub), while `stat` writes the fully
populated snapshot of the file the backend opens. -/
theorem lstat_stub (path : String) :
    sys_lstat path false = .ok ({} : Stat)
    ∧ sys_lstat path true = .error .EFAULT
    ∧ (∀ (B : Backend) (f : FsFile),
        B.openFile path { OpenOptions.new with readFl := true } = .ok f →
        sys_stat B path false = .ok (mkFileStat f.meta {} {})) := by
  refine ⟨rfl, rfl, ?_⟩
  intro B f hopen
  simp only [sys_stat, Bool.false_eq_true, if_false, hopen]
  rfl

/-- Witness for `lstat_stub` at path `/f` against the concrete backend. -/
theorem lstat_stub_witness :
    sys_lstat "/f" false = .ok ({} : Stat)
    ∧ sys_stat Bdemo "/f" false = .ok (mkFileStat fileDemo.meta {} {}) :=
  ⟨(lstat_stub "/f").1, (lstat_stub "/f").2.2 Bdemo fileDemo rfl⟩

/-- C1: the path branch of `utimensat` diverges from the claim.  With
`dirfd = AT_FDCWD` and an absolute path the call fails with `EBADF`
(the source compares `dirfd` against `-AT_FDCWD`, that is `+100`, for its
cwd branch, so `AT_FDCWD` itself falls through to `Directory::from_fd`),
instead of resolving against the cwd and returning 0; and even on the
branch that does open the target (`dirfd = 100` here), the opened file is
registered with zeroed overlay timestamps — the requested values
`(5,7)/(6,8)` are never applied. -/
theorem utimensat_path_branch_divergence :
    sys_utimensat Bdemo ⟨9, 5⟩ tblEmpty AT_FDCWD (some "/a")
        (some (⟨5, 7⟩, ⟨6, 8⟩)) = .error .EBADF
    ∧ sys_utimensat Bdemo ⟨9, 5⟩ tblEmpty 100 (some "/a")
        (some (⟨5, 7⟩, ⟨6, 8⟩)) =
        .ok (0, { entries := [File.new fileDemo], cap := 1024 })
    ∧ File.new fileDemo = .file fileDemo ⟨0, 0⟩ ⟨0, 0⟩ := by
  refine ⟨rfl, rfl, rfl⟩

/-- C6: `mount` with an already-mounted source and an empty target panics
(the `unwrap` of the normalization error; modelled as `none`) instead of
returning −1; an unknown source does return −1, a good source and target
return 0, and `to_root_path` keeps absolute paths, strips a leading `./`
and joins relative paths to the cwd with a single `/`. -/
theorem mount_empty_target_panics :
    mount findDemo mountFsDemo (.ok "/cwd") "dev" "" = none
    ∧ mount findDemo mountFsDemo (.ok "/cwd") "nosrc" "/mnt" = some (-1)
    ∧ mount findDemo mountFsDemo (.ok "/cwd") "dev" "/mnt" = some 0
    ∧ to_root_path (.ok "/cwd") "/abs" = .ok "/abs"
    ∧ to_root_path (.ok "/cwd") "./rel" = .ok "/cwd/rel"
    ∧ to_root_path (.ok "/cwd") "rel" = .ok "/cwd/rel"
    ∧ to_root_path (.ok "/cwd") "" = .error .InvalidInput := by
  refine ⟨rfl, rfl, rfl, rfl, ?_, rfl, rfl⟩
  rfl

end ArceosVfs
